import Mathlib

/-!
Shallow embedding of the command execution gateway of `src/shell/server.py`
(the `mcp-chickpeas` repository): the `is_safe_command` safety policy and the
`run_command` tool handler.

Python string primitives (`str.lower`, `str.strip`, the substring test `in`,
`str.startswith`) are embedded as executable functions over the character
lists underlying Lean strings, so that concrete commands can be evaluated by
`decide`.  The effectful part of `run_command` (subprocess creation,
`communicate`, `asyncio.CancelledError`, generic exceptions) is embedded by
making the behaviour of the operating system and the event loop at the
awaited points an explicit parameter (`ExecEvent`), and by recording in the
returned trace how many child processes the request created and whether every
created child had exited (or been killed) by the time the handler returned.
-/

/-- Embedding of Python `str.lower()`: `Char.toLower` folds exactly the ASCII
uppercase letters, which is all the rule sets of the policy exercise. -/
def pyLower (s : String) : String :=
  String.mk (s.data.map Char.toLower)

/-- Embedding of Python `str.strip()` with no argument: remove leading and
trailing whitespace characters. -/
def pyStrip (s : String) : String :=
  String.mk (((s.data.dropWhile Char.isWhitespace).reverse.dropWhile
    Char.isWhitespace).reverse)

/-- Helper for `containsSub`: does `needle` occur as a contiguous run inside
the second list? -/
def containsSubGo (needle : List Char) : List Char → Bool
  | [] => needle.isEmpty
  | c :: cs => needle.isPrefixOf (c :: cs) || containsSubGo needle cs

/-- Embedding of the Python substring test `needle in haystack`. -/
def containsSub (haystack needle : String) : Bool :=
  containsSubGo needle.data haystack.data

/-- Embedding of Python `s.startswith(p)`. -/
def pyStartsWith (s p : String) : Bool :=
  p.data.isPrefixOf s.data

/-- `BLOCKED_COMMANDS` from `src/shell/server.py` (lines 24-31): the fixed
denylist of dangerous command fragments. -/
def BLOCKED_COMMANDS : List String :=
  ["rm -rf /", "shutdown", "reboot", "sudo rm", "init 0", "halt"]

/-- `PROTECTED_PATHS` from `src/shell/server.py` (lines 34-42): the fixed
list of protected system paths.  Note that the entry `"/System"` keeps its
capital `S`, exactly as in the source. -/
def PROTECTED_PATHS : List String :=
  ["/System", "/bin", "/sbin", "/usr", "/etc", "/var", "/boot"]

/-- The reassignment `command = command.lower().strip()` at the top of
`is_safe_command` (line 54). -/
def normalizeCommand (command : String) : String :=
  pyStrip (pyLower command)

/-- Embedding of `is_safe_command` from `src/shell/server.py` (lines 44-73):
the three early-`return False` loops and checks become a chain of
conditionals, each testing over the normalized command text. -/
def is_safe_command (command : String) : Bool :=
  if BLOCKED_COMMANDS.any (fun blocked =>
      containsSub (normalizeCommand command) blocked) then false
  else if PROTECTED_PATHS.any (fun path =>
      containsSub (normalizeCommand command) path &&
      (containsSub (normalizeCommand command) "rm" ||
       containsSub (normalizeCommand command) "mv" ||
       containsSub (normalizeCommand command) "rmdir")) then false
  else if pyStartsWith (normalizeCommand command) "sudo " ||
      pyStartsWith (normalizeCommand command) "su " then false
  else true

/-- The dictionary returned by `run_command`:
`{stdout, stderr, return_code, blocked}`. -/
structure ToolResult where
  stdout : String
  stderr : String
  return_code : Int
  blocked : Bool
deriving DecidableEq, Repr

/-- The blocked-command dictionary returned at lines 90-97 of
`src/shell/server.py`. -/
def blockedResult : ToolResult :=
  { stdout := "", stderr := "Command blocked for security reasons",
    return_code := 1, blocked := true }

/-- The dictionary returned by the `except asyncio.CancelledError` handler
(lines 130-137). -/
def cancelResult : ToolResult :=
  { stdout := "", stderr := "Command execution cancelled",
    return_code := -1, blocked := false }

/-- The dictionary returned by the `except Exception as e` handler
(lines 138-145), with `str(e)` interpolated into the message. -/
def errorResult (msg : String) : ToolResult :=
  { stdout := "", stderr := "Error executing command: " ++ msg,
    return_code := -1, blocked := false }

/-- Behaviour of the operating system and the event loop at the awaited
points of one `run_command` request, on the path where the command was
allowed.  Each constructor corresponds to one way the `try` block of
`run_command` can leave its straight-line code:

* `completes`: `create_subprocess_shell` succeeds and `communicate` returns
  the two decoded streams and the exit code;
* `cancelledBeforeSpawn`: `asyncio.CancelledError` is raised at the first
  await, before a child process exists;
* `cancelledDuringCommunicate`: the child was spawned, and
  `asyncio.CancelledError` is raised while awaiting `communicate`; the
  arguments record the output drained so far and whether the child happened
  to have already exited at that moment (the handler itself never touches the
  process);
* `spawnError`: `create_subprocess_shell` raises an `Exception` (for example
  a missing interpreter or permission denied), so no child was created;
* `commError`: the child was spawned and some other `Exception` is raised
  while draining or decoding; whether the child had exited is recorded, the
  handler never touches the process. -/
inductive ExecEvent where
  | completes (stdoutBytes stderrBytes : String) (returncode : Int)
  | cancelledBeforeSpawn
  | cancelledDuringCommunicate (partialOut partialErr : String)
      (childExited : Bool)
  | spawnError (msg : String)
  | commError (msg : String) (childExited : Bool)
deriving DecidableEq, Repr

/-- Observable trace of one `run_command` request: the returned dictionary,
how many child processes were created, and whether every created child had
exited or been killed by the time the handler returned (`true` vacuously when
no child was created). -/
structure ExecTrace where
  result : ToolResult
  spawned : Nat
  childTerminated : Bool
deriving DecidableEq, Repr

/-- Embedding of `run_command` from `src/shell/server.py` (lines 75-145).
The safety check short-circuits to `blockedResult` without a spawn; on the
allowed path the outcome is determined by the `ExecEvent`.  Both `except`
handlers return a fixed-shape dictionary and perform no operation on the
child process, so on the cancellation and fault events the trace's
`childTerminated` field is whatever the event left it as.  The
`if out = "" then "" else out` mirrors `stdout.decode() if stdout else ""`
applied to the decoded stream. -/
def run_command (command : String) (ev : ExecEvent) : ExecTrace :=
  if !is_safe_command command then
    { result := blockedResult, spawned := 0, childTerminated := true }
  else
    match ev with
    | .completes out err rc =>
        { result := { stdout := if out = "" then "" else out,
                      stderr := if err = "" then "" else err,
                      return_code := rc, blocked := false },
          spawned := 1, childTerminated := true }
    | .cancelledBeforeSpawn =>
        { result := cancelResult, spawned := 0, childTerminated := true }
    | .cancelledDuringCommunicate _ _ childExited =>
        { result := cancelResult, spawned := 1, childTerminated := childExited }
    | .spawnError msg =>
        { result := errorResult msg, spawned := 0, childTerminated := true }
    | .commError msg childExited =>
        { result := errorResult msg, spawned := 1, childTerminated := childExited }

/-- Modelled from the spec: the host shell interpreter is outside the
repository.  POSIX quote removal deletes unquoted double-quote characters
from a word; for a command whose quoted sections contain no metacharacters,
the command the shell actually executes is the quote-stripped text.  Used
only to relate a quoted command to its shell-equivalent unquoted form. -/
def shellQuoteRemoval (s : String) : String :=
  String.mk (s.data.filter (fun c => c ≠ '"'))

/-! Helper lemmas about `is_safe_command`. -/

theorem is_safe_command_false_of_blocked {cmd b : String}
    (hb : b ∈ BLOCKED_COMMANDS)
    (hc : containsSub (normalizeCommand cmd) b = true) :
    is_safe_command cmd = false := by
  unfold is_safe_command
  rw [if_pos (List.any_eq_true.mpr ⟨b, hb, hc⟩)]

theorem is_safe_command_false_of_su {cmd : String}
    (h : pyStartsWith (normalizeCommand cmd) "sudo " = true ∨
         pyStartsWith (normalizeCommand cmd) "su " = true) :
    is_safe_command cmd = false := by
  unfold is_safe_command
  split
  · rfl
  · split
    · rfl
    · rw [if_pos]
      rcases h with h | h <;> simp [h]

theorem is_safe_command_true_of_checks_false {cmd : String}
    (hbl : BLOCKED_COMMANDS.any (fun blocked =>
      containsSub (normalizeCommand cmd) blocked) = false)
    (hpp : PROTECTED_PATHS.any (fun path =>
      containsSub (normalizeCommand cmd) path &&
      (containsSub (normalizeCommand cmd) "rm" ||
       containsSub (normalizeCommand cmd) "mv" ||
       containsSub (normalizeCommand cmd) "rmdir")) = false)
    (hsudo : pyStartsWith (normalizeCommand cmd) "sudo " = false)
    (hsu : pyStartsWith (normalizeCommand cmd) "su " = false) :
    is_safe_command cmd = true := by
  unfold is_safe_command
  rw [if_neg (by simp [hbl]), if_neg (by simp [hpp]),
    if_neg (by simp [hsudo, hsu])]

theorem run_command_when_blocked {cmd : String} (ev : ExecEvent)
    (h : is_safe_command cmd = false) :
    run_command cmd ev =
      { result := blockedResult, spawned := 0, childTerminated := true } := by
  unfold run_command
  rw [h]
  rfl

/-- C1: every command whose lowercased, stripped text contains a denylist
entry is answered with exactly the blocked dictionary
`{stdout := "", stderr := "Command blocked for security reasons",
return_code := 1, blocked := true}`, and no child process is spawned,
whatever the environment would have done. -/
theorem C1_denylist_blocks (cmd : String) (ev : ExecEvent) (b : String)
    (hb : b ∈ BLOCKED_COMMANDS)
    (hc : containsSub (normalizeCommand cmd) b = true) :
    (run_command cmd ev).result = blockedResult ∧
    (run_command cmd ev).spawned = 0 := by
  rw [run_command_when_blocked ev (is_safe_command_false_of_blocked hb hc)]
  exact ⟨rfl, rfl⟩

/-- Witness for C1 at the concrete command `"Shutdown -h now"` with a
would-complete environment. -/
theorem C1_denylist_blocks_witness :
    (run_command "Shutdown -h now" (ExecEvent.completes "x" "" 0)).result
      = blockedResult ∧
    (run_command "Shutdown -h now" (ExecEvent.completes "x" "" 0)).spawned
      = 0 :=
  C1_denylist_blocks "Shutdown -h now" (ExecEvent.completes "x" "" 0)
    "shutdown" (by decide) (by decide)

/-- C7: every command whose stripped, lowercased text starts with `"sudo "`
or `"su "` is denied, and `run_command` answers with the blocked dictionary,
no matter what the rest of the command is. -/
theorem C7_superuser_prefix_blocks (cmd : String) (ev : ExecEvent)
    (h : pyStartsWith (normalizeCommand cmd) "sudo " = true ∨
         pyStartsWith (normalizeCommand cmd) "su " = true) :
    (run_command cmd ev).result = blockedResult ∧
    (run_command cmd ev).spawned = 0 := by
  rw [run_command_when_blocked ev (is_safe_command_false_of_su h)]
  exact ⟨rfl, rfl⟩

/-- Witness for C7 at the harmless-looking concrete command `"sudo ls"`. -/
theorem C7_superuser_prefix_blocks_witness :
    (run_command "sudo ls" ExecEvent.cancelledBeforeSpawn).result
      = blockedResult ∧
    (run_command "sudo ls" ExecEvent.cancelledBeforeSpawn).spawned = 0 :=
  C7_superuser_prefix_blocks "sudo ls" ExecEvent.cancelledBeforeSpawn
    (Or.inl (by decide))

theorem errorResult_stderr_ne (msg : String) : (errorResult msg).stderr ≠ "" := by
  intro heq
  have hlen := congrArg String.length heq
  rw [show (errorResult msg).stderr = "Error executing command: " ++ msg from rfl,
    String.length_append, show ("Error executing command: ").length = 25 from rfl,
    show ("" : String).length = 0 from rfl] at hlen
  omega

/-- C8: for every allowed command whose child completes, `run_command`
returns the outcome verbatim: the decoded stdout, the decoded stderr, the
exit code, and `blocked := false`, with exactly one child spawned and waited
on. -/
theorem C8_completed_verbatim (cmd out err : String) (rc : Int)
    (h : is_safe_command cmd = true) :
    run_command cmd (ExecEvent.completes out err rc) =
      { result := { stdout := out, stderr := err,
                    return_code := rc, blocked := false },
        spawned := 1, childTerminated := true } := by
  have h1 : (if out = "" then "" else out) = out := by
    by_cases h' : out = "" <;> simp [h']
  have h2 : (if err = "" then "" else err) = err := by
    by_cases h' : err = "" <;> simp [h']
  unfold run_command
  rw [h]
  simp only [Bool.not_true, h1, h2]
  rfl

/-- Witness for C8: `"echo hello"` completing with output `"hello\n"` yields
exactly the dictionary the spec displays. -/
theorem C8_completed_verbatim_witness :
    run_command "echo hello" (ExecEvent.completes "hello\n" "" 0) =
      { result := { stdout := "hello\n", stderr := "",
                    return_code := 0, blocked := false },
        spawned := 1, childTerminated := true } :=
  C8_completed_verbatim "echo hello" "hello\n" "" 0 (by decide)

/-- C5: every request cancelled before completion — whether before the spawn
or while awaiting `communicate` — returns exactly
`{stdout := "", stderr := "Command execution cancelled", return_code := -1,
blocked := false}`, regardless of the partial output already drained. -/
theorem C5_cancel_discards_partial_output (cmd po pe : String) (ce : Bool)
    (h : is_safe_command cmd = true) :
    (run_command cmd (ExecEvent.cancelledDuringCommunicate po pe ce)).result
      = cancelResult ∧
    (run_command cmd ExecEvent.cancelledBeforeSpawn).result = cancelResult := by
  unfold run_command
  rw [h]
  exact ⟨rfl, rfl⟩

/-- Witness for C5 at `"cat big"` with nonempty partial output already
collected. -/
theorem C5_cancel_discards_partial_output_witness :
    (run_command "cat big"
      (ExecEvent.cancelledDuringCommunicate "partial data" "warn" true)).result
      = cancelResult ∧
    (run_command "cat big" ExecEvent.cancelledBeforeSpawn).result
      = cancelResult :=
  C5_cancel_discards_partial_output "cat big" "partial data" "warn" true
    (by decide)

/-- C6: spawn-level and drain-level faults never escape `run_command`: both
fault events produce a `ToolResult` with empty stdout, the non-empty
diagnostic `"Error executing command: " ++ msg` in stderr, return code `-1`
and `blocked := false`, and the spawn is never retried (at most one child is
ever created). -/
theorem C6_faults_become_results (cmd msg : String) (ce : Bool)
    (h : is_safe_command cmd = true) :
    (run_command cmd (ExecEvent.spawnError msg)).result = errorResult msg ∧
    (run_command cmd (ExecEvent.spawnError msg)).spawned = 0 ∧
    (run_command cmd (ExecEvent.commError msg ce)).result = errorResult msg ∧
    (run_command cmd (ExecEvent.commError msg ce)).spawned = 1 ∧
    (errorResult msg).stdout = "" ∧
    (errorResult msg).stderr ≠ "" ∧
    (errorResult msg).return_code = -1 ∧
    (errorResult msg).blocked = false := by
  unfold run_command
  rw [h]
  exact ⟨rfl, rfl, rfl, rfl, rfl, errorResult_stderr_ne msg, rfl, rfl⟩

/-- Witness for C6 at `"ls"` with the diagnostic of a missing interpreter. -/
theorem C6_faults_become_results_witness :
    (run_command "ls" (ExecEvent.spawnError "No such file or directory")).result
      = errorResult "No such file or directory" ∧
    (run_command "ls" (ExecEvent.spawnError "No such file or directory")).spawned
      = 0 ∧
    (run_command "ls"
      (ExecEvent.commError "No such file or directory" false)).result
      = errorResult "No such file or directory" ∧
    (run_command "ls"
      (ExecEvent.commError "No such file or directory" false)).spawned = 1 ∧
    (errorResult "No such file or directory").stdout = "" ∧
    (errorResult "No such file or directory").stderr ≠ "" ∧
    (errorResult "No such file or directory").return_code = -1 ∧
    (errorResult "No such file or directory").blocked = false :=
  C6_faults_become_results "ls" "No such file or directory" false (by decide)

/-- C10: the superuser check matches only the literal prefixes `"sudo "` and
`"su "`, each with a single trailing ASCII space: whenever the normalized
command does not start with either literal prefix (for example when it is
exactly `"sudo"`, or when the superuser word is followed by a tab), and
neither the denylist nor the protected-path rule matches, the policy allows
the command. -/
theorem C10_superuser_prefix_is_literal (cmd : String)
    (hbl : BLOCKED_COMMANDS.any (fun blocked =>
      containsSub (normalizeCommand cmd) blocked) = false)
    (hpp : PROTECTED_PATHS.any (fun path =>
      containsSub (normalizeCommand cmd) path &&
      (containsSub (normalizeCommand cmd) "rm" ||
       containsSub (normalizeCommand cmd) "mv" ||
       containsSub (normalizeCommand cmd) "rmdir")) = false)
    (hsudo : pyStartsWith (normalizeCommand cmd) "sudo " = false)
    (hsu : pyStartsWith (normalizeCommand cmd) "su " = false) :
    is_safe_command cmd = true :=
  is_safe_command_true_of_checks_false hbl hpp hsudo hsu

/-- Witness for C10 at `"sudo\tls"`: the superuser word followed by a tab
instead of a space is allowed by the policy. -/
theorem C10_superuser_prefix_is_literal_witness :
    is_safe_command "sudo\tls" = true :=
  C10_superuser_prefix_is_literal "sudo\tls" (by decide) (by decide)
    (by decide) (by decide)

/-- C2 counterexample: at the allowed command `"echo hi"`, a cancellation
delivered before the spawn returns `blocked := false` with zero processes
spawned, so the claimed exactly-one-of invariant fails for this request. -/
theorem C2_invariant_counterexample :
    ¬ (((run_command "echo hi" ExecEvent.cancelledBeforeSpawn).result.blocked
          = true ∧
        (run_command "echo hi" ExecEvent.cancelledBeforeSpawn).spawned = 0) ∨
       ((run_command "echo hi" ExecEvent.cancelledBeforeSpawn).result.blocked
          = false ∧
        (run_command "echo hi" ExecEvent.cancelledBeforeSpawn).spawned = 1 ∧
        (run_command "echo hi" ExecEvent.cancelledBeforeSpawn).childTerminated
          = true)) := by
  decide

/-- C2 amended: a blocked result is never accompanied by a spawn, at most one
child is ever created per request, and on the normally-completing path of an
allowed command exactly one child is spawned and fully waited on; but the
cancellation and fault paths may return `blocked := false` with zero spawns,
or with a spawned child that was not waited on. -/
theorem C2_spawn_invariant_amended (cmd : String) (ev : ExecEvent) :
    ((run_command cmd ev).result.blocked = true →
      (run_command cmd ev).spawned = 0) ∧
    (run_command cmd ev).spawned ≤ 1 ∧
    (∀ out err rc, is_safe_command cmd = true →
      ev = ExecEvent.completes out err rc →
      (run_command cmd ev).spawned = 1 ∧
      (run_command cmd ev).childTerminated = true) := by
  by_cases h : is_safe_command cmd = true
  · cases ev <;>
      simp [run_command, h, blockedResult, cancelResult, errorResult]
  · rw [run_command_when_blocked ev (Bool.not_eq_true _ ▸ Bool.eq_false_iff.mpr
      (fun hc => h hc))]
    refine ⟨fun _ => rfl, by simp, fun out err rc hsafe _ => absurd hsafe h⟩

/-- Witness for C2 amended: a normally-completing allowed request spawns
exactly one fully waited-on child. -/
theorem C2_spawn_invariant_amended_witness :
    (run_command "echo hi" (ExecEvent.completes "hi\n" "" 0)).spawned = 1 ∧
    (run_command "echo hi" (ExecEvent.completes "hi\n" "" 0)).childTerminated
      = true :=
  (C2_spawn_invariant_amended "echo hi"
    (ExecEvent.completes "hi\n" "" 0)).2.2 "hi\n" "" 0 (by decide) rfl

/-- C4 counterexample: the allowed command `"sleep 100"`, cancelled while its
child is still running, yields the cancellation dictionary while the child
has not been terminated — the `except asyncio.CancelledError` handler never
touches the process, so the child is leaked. -/
theorem C4_cancel_counterexample :
    (run_command "sleep 100"
      (ExecEvent.cancelledDuringCommunicate "" "" false)).result
      = cancelResult ∧
    (run_command "sleep 100"
      (ExecEvent.cancelledDuringCommunicate "" "" false)).childTerminated
      = false := by
  decide

/-- C4 amended: for every allowed command cancelled while its child process
is still running, `run_command` returns the cancellation result with exactly
one spawned child that was neither killed nor reaped — the child process is
leaked, not terminated. -/
theorem C4_cancel_leaks_child (cmd po pe : String)
    (h : is_safe_command cmd = true) :
    run_command cmd (ExecEvent.cancelledDuringCommunicate po pe false) =
      { result := cancelResult, spawned := 1, childTerminated := false } := by
  unfold run_command
  rw [h]
  rfl

/-- Witness for C4 amended at `"sleep 100"` with partial output drained. -/
theorem C4_cancel_leaks_child_witness :
    run_command "sleep 100"
      (ExecEvent.cancelledDuringCommunicate "out" "err" false) =
      { result := cancelResult, spawned := 1, childTerminated := false } :=
  C4_cancel_leaks_child "sleep 100" "out" "err" (by decide)

/-- C3: the protected-path check does not deny every command containing a
protected path (case-insensitively) together with a destructive verb: the
command `"mv file /System"` contains the listed path `"/System"` up to case
and the verb `"mv"`, yet `is_safe_command` allows it, because the capitalized
entry `"/System"` is compared case-sensitively against the lowercased command
and therefore can never match. -/
theorem C3_protected_path_case_mismatch :
    is_safe_command "mv file /System" = true ∧
    "/System" ∈ PROTECTED_PATHS ∧
    containsSub (normalizeCommand "mv file /System") (pyLower "/System")
      = true ∧
    containsSub (normalizeCommand "mv file /System") "mv" = true ∧
    containsSub (normalizeCommand "mv file /System") "/System" = false := by
  decide

/-- C9: there is a command — `shut"down"` — that the policy allows although
the command the shell actually executes after quote removal is the
denylisted `shutdown`: the policy matches literal substrings and sees no
shell quoting. -/
theorem C9_quoting_bypasses_denylist :
    ∃ cmd : String,
      is_safe_command cmd = true ∧
      is_safe_command (shellQuoteRemoval cmd) = false ∧
      "shutdown" ∈ BLOCKED_COMMANDS ∧
      containsSub (normalizeCommand (shellQuoteRemoval cmd)) "shutdown"
        = true := by
  refine ⟨"shut\"down\"", ?_, ?_, ?_, ?_⟩ <;> decide
